import Mathlib

/-!
Verification of the multi-temporal cloud-mask core of `eo-learn`
(`src/mask/eolearn/mask/cloud_mask.py`, class `AddMultiCloudMaskTask`).

The embedding models 2-D image slices as flattened lists of rationals
(`Img`); the band/channel axis of the 4-D arrays is handled in the source
by mapping the same 2-D primitive over each slice (`_map_sequence`), so the
per-slice model captures each output pixel exactly.  Floating-point
arithmetic is modelled by exact rational arithmetic; the external Gaussian
blur primitive (`cv2.GaussianBlur`, an out-of-scope collaborator) is a
parameter `blur : Img → Img` of every definition that uses it.
-/

namespace CloudMask

/-- A 2-D image slice, flattened row-major into a list of pixel values. -/
abbrev Img := List ℚ

/-- Boolean validity slice converted to numeric form, as done by
`cv2.GaussianBlur(is_data.astype(float), ...)` in the source. -/
def boolImg (d : List Bool) : Img := d.map (fun b => if b then 1 else 0)

/-- Configuration fields of `AddMultiCloudMaskTask` set by `__init__` that the
claims depend on.  Note the single field `max_proc_frames`: the source stores
one value (`self.max_proc_frames = max_proc_frames`) that is read both by
`_frame_indices` (multi-temporal window size) and `_mono_iterations`
(mono chunk size). -/
structure AddMultiCloudMaskTask where
  data_feature : String
  is_data_feature : String
  max_proc_frames : ℕ
  mono_proba_feature : Option String
  multi_proba_feature : Option String
  mono_mask_feature : Option String
  multi_mask_feature : Option String
  mask_feature : Option String
  mono_threshold : ℚ
  multi_threshold : ℚ
deriving DecidableEq

/-- Source `AddMultiCloudMaskTask._frame_indices(num_of_frames, target_idx)`:
computes the temporal window `[nt_min, nt_max)` around `target_idx` and the
target's relative position.  `max_proc_frames` is passed explicitly here
(the source reads `self.max_proc_frames`).  Python `//` on the nonnegative
`max_proc_frames` is `Nat` division; the intermediate bounds may be
negative, hence `Int`. -/
def frame_indices (max_proc_frames num_of_frames target_idx : ℕ) : Int × Int × Int :=
  let nt_min : Int := (target_idx : Int) - ((max_proc_frames / 2 : ℕ) : Int)
  let nt_max : Int := (target_idx : Int) + (max_proc_frames : Int) - ((max_proc_frames / 2 : ℕ) : Int)
  let shift : Int := max 0 (-nt_min) - max 0 (nt_max - (num_of_frames : Int))
  let nt_min' := nt_min + shift
  let nt_max' := nt_max + shift
  let nt_min'' := max 0 nt_min'
  let nt_max'' := min (num_of_frames : Int) nt_max'
  (nt_min'', nt_max'', (target_idx : Int) - nt_min'')

/-- The window size read by `_frame_indices` inside `_multi_iterations`
(line `self._frame_indices(t, t_i)` reading `self.max_proc_frames`). -/
def AddMultiCloudMaskTask.multiWindowLimit (task : AddMultiCloudMaskTask) : ℕ :=
  task.max_proc_frames

/-- The chunk size read by `_mono_iterations`
(`for t_i in range(0, t, self.max_proc_frames)`). -/
def AddMultiCloudMaskTask.monoChunkLimit (task : AddMultiCloudMaskTask) : ℕ :=
  task.max_proc_frames

/-- Arithmetic mean of a list of values (`np.ma.mean` specialised to a fully
valid stack: sum over element count). -/
def listMean (xs : List ℚ) : ℚ := xs.sum / (xs.length : ℚ)

/-- The difference-mean statistic of `_multi_iterations` (lines 680-689):
`t_all = len(bands_t)` is the full window size (target included),
`t_rest = t_all - 1`, and
`diff_mean = target*(1. + 1./t_rest) - t_all*temp_mean/t_rest`,
evaluated here per pixel in exact rational arithmetic with total division. -/
def diff_mean (t_all : ℕ) (target temp_mean : ℚ) : ℚ :=
  let t_rest : ℕ := t_all - 1
  target * (1 + 1 / (t_rest : ℚ)) - (t_all : ℚ) * temp_mean / (t_rest : ℚ)

/-- Modelled from the spec: the difference-mean formula exactly as the claim
words it, with `n` declared to be "the window size excluding the target".
Declared only for comparison against the source's `diff_mean`. -/
def claimDiffMean (n : ℕ) (target temp_mean : ℚ) : ℚ :=
  target * (1 + 1 / ((n : ℚ) - 1)) - (n : ℚ) * temp_mean / ((n : ℚ) - 1)

/-- Python scalar division: raises `ZeroDivisionError` when the divisor is
zero; modelled as `Option` (fallible code). -/
def pyDiv (a b : ℚ) : Option ℚ := if b = 0 then none else some (a / b)

/-- The difference-mean computation of `_multi_iterations` under Python
division semantics: `t_rest = t_all - 1` is a Python `int`, and the scalar
divisions `1./t_rest` and `t_all*temp_mean/t_rest` raise `ZeroDivisionError`
when `t_rest = 0`, i.e. when the window holds a single frame. -/
def diff_mean_py (t_all : ℕ) (target temp_mean : ℚ) : Option ℚ :=
  let t_rest : ℕ := t_all - 1
  match pyDiv 1 (t_rest : ℚ), pyDiv ((t_all : ℚ) * temp_mean) (t_rest : ℚ) with
  | some r, some s => some (target * (1 + r) - s)
  | _, _ => none

/-- A single frame of the stack, as the row-major list of its per-pixel
feature rows (each row is the pixel's band vector), matching the row order
of `bands_t.reshape(np.prod(bands_t.shape[:-1]), bands_t.shape[-1])`. -/
abbrev Frame := List (List ℚ)

/-- The chunking of `_mono_iterations`' loop
`for t_i in range(0, t, self.max_proc_frames)` with
`bands_t = bands[nt_min:nt_max]`, `nt_max = min(t_i+max_proc_frames, t)`:
consecutive runs of at most `m` frames.  The fuel argument (instantiated
with the total frame count) bounds the recursion; for `m ≥ 1` the loop
takes at most one step per frame. -/
def monoChunks (m : ℕ) : ℕ → List Frame → List (List Frame)
  | 0, _ => []
  | _ + 1, [] => []
  | fuel + 1, f :: rest => ((f :: rest).take m) :: monoChunks m fuel ((f :: rest).drop m)

/-- Source `AddMultiCloudMaskTask._mono_iterations(bands)`: partitions the frames
into chunks of at most `max_proc_frames`, flattens each chunk's pixels into
classifier feature rows, invokes the scoring function
(`self.mono_classifier.predict_proba(...)[...,1:]`, passed here as
`score`) once per chunk, and writes each chunk's probabilities back into
the flat output buffer at `[nt_min*img_size, nt_max*img_size)` — i.e. the
buffer is the in-order concatenation of the per-chunk results. -/
def mono_iterations (score : List (List ℚ) → List ℚ) (bands : List Frame)
    (max_proc_frames : ℕ) : List ℚ :=
  ((monoChunks max_proc_frames bands.length bands).map
    (fun chunk => score chunk.flatten)).flatten

/-- A feature array stored in the tile container, tagged with its element
type: probability maps are written with `astype(np.float32)`, mask layers
with `astype(bool)`; anything else the patch may hold is opaque here. -/
inductive FeatVal where
  | f32Arr (a : List ℚ)
  | boolArr (a : List Bool)
  | other (tag : ℕ)
deriving DecidableEq

/-- The tile container (`EOPatch`): string-keyed stores of feature arrays,
of which the task touches `eopatch.data` and `eopatch.mask`. -/
structure EOPatch where
  data : List (String × FeatVal)
  mask : List (String × FeatVal)
deriving DecidableEq

/-- Python dict assignment `store[key] = value`: replace the existing entry
or append a new one. -/
def setFeat : List (String × FeatVal) → String → FeatVal → List (String × FeatVal)
  | [], k, v => [(k, v)]
  | (k', v') :: rest, k, v =>
    if k' = k then (k, v) :: rest else (k', v') :: setFeat rest k v

/-- Python dict lookup `store[key]`, as an `Option`. -/
def getFeat : List (String × FeatVal) → String → Option FeatVal
  | [], _ => none
  | (k', v') :: rest, k => if k' = k then some v' else getFeat rest k

/-- One guarded write of `execute`: `if feature_name is not None:
store[feature_name] = value`. -/
def optWrite (store : List (String × FeatVal)) (name : Option String)
    (v : FeatVal) : List (String × FeatVal) :=
  match name with
  | some k => setFeat store k v
  | none => store

/-- Source `(mask * is_data).astype(bool)`: numpy multiplication of boolean arrays
is logical AND. -/
def maskValidityBool (m : List Bool) (is_data : List Bool) : List Bool :=
  List.zipWith (fun a b => a && b) m is_data

/-- Source `(proba * is_data).astype(np.float32)`: float array times boolean array,
zeroing every invalid pixel. -/
def maskValidityProba (p : List ℚ) (is_data : List Bool) : List ℚ :=
  List.zipWith (fun a b => a * (if b then 1 else 0)) p is_data

/-- The feature-writing stage of `AddMultiCloudMaskTask.execute`
(lines 783-801): re-read `is_data`, then for each configured output name
dilate (masks only), multiply by the validity mask and store — masks into
`eopatch.mask` as boolean arrays, probabilities into `eopatch.data` as
32-bit float arrays.  `dilate_all` stands for `self._dilate_all` (identity
when no dilation kernel is configured). -/
def executeWrites (task : AddMultiCloudMaskTask)
    (dilate_all : List Bool → List Bool)
    (mono_proba multi_proba : List ℚ)
    (mono_mask multi_mask inter_mask : List Bool)
    (is_data : List Bool) (eopatch : EOPatch) : EOPatch :=
  let mask1 := optWrite eopatch.mask task.mono_mask_feature
    (.boolArr (maskValidityBool (dilate_all mono_mask) is_data))
  let mask2 := optWrite mask1 task.multi_mask_feature
    (.boolArr (maskValidityBool (dilate_all multi_mask) is_data))
  let mask3 := optWrite mask2 task.mask_feature
    (.boolArr (maskValidityBool (dilate_all inter_mask) is_data))
  let data1 := optWrite eopatch.data task.mono_proba_feature
    (.f32Arr (maskValidityProba mono_proba is_data))
  let data2 := optWrite data1 task.multi_proba_feature
    (.f32Arr (maskValidityProba multi_proba is_data))
  { data := data2, mask := mask3 }

/-- Source `AddMultiCloudMaskTask._win_avg(x)`: the spatial window average, a
Gaussian blur of the slice (the blur itself is the external `cv2`
primitive, abstracted as `blur`). -/
def win_avg (blur : Img → Img) (x : Img) : Img := blur x

/-- Source `AddMultiCloudMaskTask._win_prevar(x)`: the incomplete spatial window
variance, the blur of the squared slice. -/
def win_prevar (blur : Img → Img) (x : Img) : Img :=
  blur (List.zipWith (· * ·) x x)

/-- The division guard of `_multi_iterations`:
`win_avg_is_data[win_avg_is_data == 0.] = 1.` replaces zero weights by one
before dividing. -/
def guardZero (v : ℚ) : ℚ := if v = 0 then 1 else v

/-- Windowed mean of one frame, as computed by the first-frame branch of
`_multi_iterations`: `true_win_avg = win_avg_bands / win_avg_is_data` with
the zero-weight guard applied to the blurred validity. -/
def frameMu (blur : Img → Img) (b : Img) (d : List Bool) : Img :=
  List.zipWith (fun nb nd => nb / guardZero nd)
    (win_avg blur b) (win_avg blur (boolImg d))

/-- Windowed pre-variance of one frame:
`win_prevars -= loc_mu*loc_mu` applied to `_win_prevar` of the frame. -/
def frameVar (blur : Img → Img) (b : Img) (d : List Bool) : Img :=
  List.zipWith (fun pv m => pv - m * m) (win_prevar blur b) (frameMu blur b d)

/-- The per-frame window-statistics entry `(mean, pre-variance)` held in
`loc_mu` / `loc_var` for one frame of the window. -/
def statePair (blur : Img → Img) (bd : Img × List Bool) : Img × Img :=
  (frameMu blur bd.1 bd.2, frameVar blur bd.1 bd.2)

/-- Full recomputation of the window statistics over the target's window:
the first-frame branch of `_multi_iterations` applied to the frames
`bands[nt_min:nt_max]`, `is_data[nt_min:nt_max]`. -/
def fullState (blur : Img → Img) (bands : List Img) (isData : List (List Bool))
    (w i : ℕ) : List (Img × Img) :=
  let r := frame_indices w bands.length i
  (((bands.zip isData).drop r.1.toNat).take (r.2.1.toNat - r.1.toNat)).map
    (statePair blur)

/-- The incremental window-statistics state of `_multi_iterations` after
processing target frame `i`: the first target computes the full window
(`loc_mu is None` branch); a later target reuses the state when the window
bounds are unchanged, and otherwise shifts the per-frame state left by one
(`loc_mu[:-1] = loc_mu[1:]`) and computes only the new trailing frame
`bands_t[-1]` (index `nt_max - 1`). -/
def incState (blur : Img → Img) (bands : List Img) (isData : List (List Bool))
    (w : ℕ) : ℕ → List (Img × Img)
  | 0 => fullState blur bands isData w 0
  | i + 1 =>
    let r := frame_indices w bands.length (i + 1)
    let p := frame_indices w bands.length i
    if r.1 = p.1 ∧ r.2.1 = p.2.1 then incState blur bands isData w i
    else
      (incState blur bands isData w i).drop 1
        ++ [statePair blur (bands.getD (r.2.1.toNat - 1) [],
              isData.getD (r.2.1.toNat - 1) [])]

/-- The stabilizing constant `c1 = 1e-6` of `_red_ssim`. -/
def red_ssim_c1 : ℚ := 1 / 1000000

/-- The stabilizing constant `c2 = 1e-5` of `_red_ssim`. -/
def red_ssim_c2 : ℚ := 1 / 100000

/-- Source `AddMultiCloudMaskTask._red_ssim`: reduced SSIM of two slices given
precomputed means and pre-variances.  Invalid pixels are zeroed in `x` and
`y` before blurring; then
`cross = blur(x*y) - mu1*mu2` and
`ssim = ((2*mu1*mu2 + c1)*(2*cross + c2)) /
        ((mu1^2 + mu2^2 + c1)*(sigma1_2 + sigma2_2 + c2))`, per pixel. -/
def red_ssim (blur : Img → Img) (x y : Img) (valid_mask : List Bool)
    (mu1 mu2 sigma1_2 sigma2_2 : Img) (c1 c2 : ℚ) : Img :=
  let vm := boolImg valid_mask
  let x' := List.zipWith (· * ·) x vm
  let y' := List.zipWith (· * ·) y vm
  let mu1_mu2 := List.zipWith (· * ·) mu1 mu2
  let sigma12 := List.zipWith (· - ·) (blur (List.zipWith (· * ·) x' y')) mu1_mu2
  let num := List.zipWith (fun m12 s12 => (2 * m12 + c1) * (2 * s12 + c2))
    mu1_mu2 sigma12
  let den := List.zipWith (· * ·)
    (List.zipWith (fun a b => a * a + b * b + c1) mu1 mu2)
    (List.zipWith (fun a b => a + b + c2) sigma1_2 sigma2_2)
  List.zipWith (· / ·) num den

/-- Chunks of a list concatenate back to the list. -/
theorem monoChunks_flatten (m : ℕ) (hm : 1 ≤ m) :
    ∀ (fuel : ℕ) (l : List Frame), l.length ≤ fuel →
      (monoChunks m fuel l).flatten = l := by
  intro fuel
  induction fuel with
  | zero =>
    intro l hl
    have : l = [] := by
      cases l with
      | nil => rfl
      | cons a l' => simp at hl
    subst this
    rfl
  | succ n ih =>
    intro l hl
    cases l with
    | nil => rfl
    | cons a l' =>
      have hdrop : ((a :: l').drop m).length ≤ n := by
        simp only [List.length_drop, List.length_cons] at *
        omega
      simp only [monoChunks, List.flatten_cons, ih _ hdrop, List.take_append_drop]

/-- Flattening chunks after scoring each per-row commutes with scoring the
whole flattened stack per-row. -/
theorem scored_chunks_flatten (f : List ℚ → ℚ) (L : List (List Frame)) :
    (L.map (fun chunk => (chunk.flatten).map f)).flatten
      = ((L.flatten).flatten).map f := by
  induction L with
  | nil => simp
  | cons c L ih =>
    simp only [List.map_cons, List.flatten_cons, ih, List.flatten_append,
      List.map_append]

/-- Sum of a list after removing the element at index `i`. -/
theorem sum_eraseIdx (xs : List ℚ) (i : ℕ) (hi : i < xs.length) :
    (xs.eraseIdx i).sum = xs.sum - xs.getD i 0 := by
  induction xs generalizing i with
  | nil => simp at hi
  | cons a l ih =>
    cases i with
    | zero => simp [List.eraseIdx]
    | succ j =>
      have hj : j < l.length := by simpa using hi
      simp only [List.eraseIdx, List.sum_cons, List.getD_cons_succ, ih j hj]
      ring

/-- Length of a list after removing the element at index `i`. -/
theorem length_eraseIdx_lt (xs : List ℚ) (i : ℕ) (hi : i < xs.length) :
    (xs.eraseIdx i).length = xs.length - 1 := by
  induction xs generalizing i with
  | nil => simp at hi
  | cons a l ih =>
    cases i with
    | zero => simp [List.eraseIdx]
    | succ j =>
      have hj : j < l.length := by simpa using hi
      have hl : 1 ≤ l.length := by omega
      simp only [List.eraseIdx, List.length_cons, ih j hj]
      omega

end CloudMask

/-- C10: the maximum temporal window size used by the multi-temporal path
(`_frame_indices`) and the maximum chunk size used by the mono path
(`_mono_iterations`) are both reads of the single configuration field
`max_proc_frames`, so for every task instance the two limits are equal and
can never be configured independently. -/
theorem CloudMask.max_proc_frames_shared_limit
    (task : CloudMask.AddMultiCloudMaskTask) :
    task.multiWindowLimit = task.max_proc_frames ∧
    task.monoChunkLimit = task.max_proc_frames ∧
    task.multiWindowLimit = task.monoChunkLimit :=
  ⟨rfl, rfl, rfl⟩

/-- C4 counterexample: for the window `[0, 3, 0]` with target at index 1
(value 3), the window size excluding the target is `n = 2`; the formula
`target*(1 + 1/(n-1)) - n*temporal_mean/(n-1)` with that `n`, as the claim
states it, evaluates to 4 and does not equal target minus the mean of the
other frames, which is 3. -/
theorem CloudMask.diff_mean_claim_counterexample :
    CloudMask.claimDiffMean 2 3 (CloudMask.listMean [0, 3, 0]) ≠
      3 - CloudMask.listMean (List.eraseIdx [0, 3, 0] 1) := by
  norm_num [CloudMask.claimDiffMean, CloudMask.listMean, List.eraseIdx]

/-- C4 (amended): the difference-mean statistic as the source computes it —
`target*(1 + 1/(N-1)) - N*temporal_mean/(N-1)` with `N = t_all` the FULL
window size (target included, so `N-1 = t_rest` is the size excluding the
target) — equals target minus the mean of the other (non-target) frames,
per pixel, whenever the window has at least two frames and the data is
fully valid (plain arithmetic means). -/
theorem CloudMask.diff_mean_excludes_target_mean
    (xs : List ℚ) (i : ℕ) (hi : i < xs.length) (h2 : 2 ≤ xs.length) :
    CloudMask.diff_mean xs.length (xs.getD i 0) (CloudMask.listMean xs)
      = xs.getD i 0 - CloudMask.listMean (xs.eraseIdx i) := by
  have hsum := CloudMask.sum_eraseIdx xs i hi
  have hlen := CloudMask.length_eraseIdx_lt xs i hi
  dsimp only [CloudMask.diff_mean, CloudMask.listMean]
  rw [hsum, hlen]
  have hc : ((xs.length - 1 : ℕ) : ℚ) = (xs.length : ℚ) - 1 := by
    have : 1 ≤ xs.length := by omega
    push_cast [this]
    ring
  have h0 : ((xs.length : ℚ)) ≠ 0 := by
    have : xs.length ≠ 0 := by omega
    exact_mod_cast this
  have h1 : ((xs.length : ℚ) - 1) ≠ 0 := by
    have h2' : (2 : ℚ) ≤ (xs.length : ℚ) := by exact_mod_cast h2
    intro h
    nlinarith
  rw [hc]
  field_simp
  ring

/-- Witness for C4's amended theorem: window `[0, 3, 0]`, target index 1. -/
theorem CloudMask.diff_mean_excludes_target_mean_witness :
    CloudMask.diff_mean ([0, 3, 0] : List ℚ).length (([0, 3, 0] : List ℚ).getD 1 0)
        (CloudMask.listMean [0, 3, 0])
      = (([0, 3, 0] : List ℚ).getD 1 0) - CloudMask.listMean (([0, 3, 0] : List ℚ).eraseIdx 1) :=
  CloudMask.diff_mean_excludes_target_mean [0, 3, 0] 1 (by decide) (by decide)

/-- C5: the code does not supply the fallback the spec requires.  With a
single-frame stack (`total_frames = 1`, default `max_proc_frames = 11`) the
window returned by `_frame_indices` has exactly one frame, so `t_rest = 0`
and the scalar division `1./t_rest` in the difference statistics raises an
uncaught `ZeroDivisionError` (modelled: `diff_mean_py` returns `none`) for
every target value and temporal mean. -/
theorem CloudMask.diff_mean_window_size_one_raises :
    ∀ target temp_mean : ℚ,
      ((CloudMask.frame_indices 11 1 0).2.1 - (CloudMask.frame_indices 11 1 0).1) = 1 ∧
      CloudMask.diff_mean_py 1 target temp_mean = none := by
  intro v m
  refine ⟨by decide, ?_⟩
  simp [CloudMask.diff_mean_py, CloudMask.pyDiv]

/-- C2: for every `total_frames ≥ 1`, `0 ≤ target_idx < total_frames` and max
window size `≥ 1`, `_frame_indices` returns `(low, high, rel)` with
`0 ≤ low ≤ target_idx < high ≤ total_frames` and `rel = target_idx - low`;
in particular `_frame_indices` with `total_frames = 5`, `target_idx = 0`,
max window `3` returns `low = 0`, `high = 3`, `rel = 0`. -/
theorem CloudMask.frame_indices_window_bounds :
    (∀ w t i : ℕ, 1 ≤ w → i < t →
      0 ≤ (CloudMask.frame_indices w t i).1 ∧
      (CloudMask.frame_indices w t i).1 ≤ (i : Int) ∧
      (i : Int) < (CloudMask.frame_indices w t i).2.1 ∧
      (CloudMask.frame_indices w t i).2.1 ≤ (t : Int) ∧
      (CloudMask.frame_indices w t i).2.2 = (i : Int) - (CloudMask.frame_indices w t i).1) ∧
    CloudMask.frame_indices 3 5 0 = (0, 3, 0) := by
  constructor
  · intro w t i hw hi
    dsimp only [CloudMask.frame_indices]
    omega
  · decide

/-- Witness for C2 at `w = 3`, `t = 7`, `i = 6`. -/
theorem CloudMask.frame_indices_window_bounds_witness :
    0 ≤ (CloudMask.frame_indices 3 7 6).1 ∧
    (CloudMask.frame_indices 3 7 6).1 ≤ (6 : Int) ∧
    (6 : Int) < (CloudMask.frame_indices 3 7 6).2.1 ∧
    (CloudMask.frame_indices 3 7 6).2.1 ≤ (7 : Int) ∧
    (CloudMask.frame_indices 3 7 6).2.2 = (6 : Int) - (CloudMask.frame_indices 3 7 6).1 :=
  CloudMask.frame_indices_window_bounds.1 3 7 6 (by decide) (by decide)

/-- C3: whenever `total_frames ≥ max_window ≥ 1` and the target index is in
range, the window returned by `_frame_indices` has exactly `max_window`
frames (`high - low = max_window`) — the boundary clamps never shrink it in
this regime — and the target stays inside it (`low ≤ target < high`). -/
theorem CloudMask.frame_indices_full_window_size (w t i : ℕ)
    (hw : 1 ≤ w) (hwt : w ≤ t) (hi : i < t) :
    (CloudMask.frame_indices w t i).2.1 - (CloudMask.frame_indices w t i).1 = (w : Int) ∧
    (CloudMask.frame_indices w t i).1 ≤ (i : Int) ∧
    (i : Int) < (CloudMask.frame_indices w t i).2.1 := by
  dsimp only [CloudMask.frame_indices]
  omega

/-- Witness for C3 at `w = 3`, `t = 5`, `i = 4`. -/
theorem CloudMask.frame_indices_full_window_size_witness :
    (CloudMask.frame_indices 3 5 4).2.1 - (CloudMask.frame_indices 3 5 4).1 = (3 : Int) ∧
    (CloudMask.frame_indices 3 5 4).1 ≤ (4 : Int) ∧
    (4 : Int) < (CloudMask.frame_indices 3 5 4).2.1 :=
  CloudMask.frame_indices_full_window_size 3 5 4 (by decide) (by decide) (by decide)

/-- C6: for every band stack and every chunk size `max_proc_frames ≥ 1`,
given a deterministic, row-order-preserving scoring function (`score`
applies a fixed per-row probability function `f` to each feature row in
order), `_mono_iterations` — which partitions the frames into chunks of at
most `max_proc_frames` along time, scores once per chunk, and writes
results back in `(frame, row, col)` row-major order — produces exactly the
probability buffer obtained by computing all frames in a single chunk. -/
theorem CloudMask.mono_iterations_chunk_invariant
    (score : List (List ℚ) → List ℚ) (f : List ℚ → ℚ)
    (hscore : ∀ rows, score rows = rows.map f)
    (bands : List CloudMask.Frame) (max_proc_frames : ℕ)
    (hm : 1 ≤ max_proc_frames) :
    CloudMask.mono_iterations score bands max_proc_frames = score bands.flatten := by
  simp only [CloudMask.mono_iterations, hscore]
  rw [CloudMask.scored_chunks_flatten f,
    CloudMask.monoChunks_flatten max_proc_frames hm bands.length bands le_rfl]

/-- Witness for C6: two frames of one pixel each plus one frame of one
pixel, chunk size 1, scoring each row by its head. -/
theorem CloudMask.mono_iterations_chunk_invariant_witness :
    CloudMask.mono_iterations (fun rows => rows.map (fun r => r.headD 0))
        [[[1], [2]], [[3]]] 1
      = (fun rows => rows.map (fun r => r.headD 0))
          (([[[1], [2]], [[3]]] : List CloudMask.Frame).flatten) :=
  CloudMask.mono_iterations_chunk_invariant _ (fun r => r.headD 0)
    (fun _ => rfl) _ 1 (by decide)

/-- Lookup after writing the same key. -/
theorem CloudMask.getFeat_setFeat_self (s : List (String × CloudMask.FeatVal))
    (k : String) (v : CloudMask.FeatVal) :
    CloudMask.getFeat (CloudMask.setFeat s k v) k = some v := by
  induction s with
  | nil => simp [CloudMask.setFeat, CloudMask.getFeat]
  | cons p rest ih =>
    obtain ⟨k', v'⟩ := p
    by_cases h : k' = k
    · simp [CloudMask.setFeat, CloudMask.getFeat, h]
    · simp [CloudMask.setFeat, CloudMask.getFeat, h, ih]

/-- Lookup after writing a different key. -/
theorem CloudMask.getFeat_setFeat_ne (s : List (String × CloudMask.FeatVal))
    (k n : String) (v : CloudMask.FeatVal) (h : k ≠ n) :
    CloudMask.getFeat (CloudMask.setFeat s k v) n = CloudMask.getFeat s n := by
  induction s with
  | nil => simp [CloudMask.setFeat, CloudMask.getFeat, h]
  | cons p rest ih =>
    obtain ⟨k', v'⟩ := p
    by_cases h' : k' = k
    · subst h'
      simp [CloudMask.setFeat, CloudMask.getFeat, h]
    · by_cases h'' : k' = n
      · simp [CloudMask.setFeat, CloudMask.getFeat, h', h'', Ne.symm h]
      · simp [CloudMask.setFeat, CloudMask.getFeat, h', h'', Ne.symm h, ih]

/-- A guarded write to the written name stores the written value. -/
theorem CloudMask.getFeat_optWrite_eq (s : List (String × CloudMask.FeatVal))
    (k : String) (v : CloudMask.FeatVal) :
    CloudMask.getFeat (CloudMask.optWrite s (some k) v) k = some v :=
  CloudMask.getFeat_setFeat_self s k v

/-- A guarded write to another name (or no write) leaves a lookup alone. -/
theorem CloudMask.getFeat_optWrite_ne (s : List (String × CloudMask.FeatVal))
    (name : Option String) (v : CloudMask.FeatVal) (n : String)
    (h : name ≠ some n) :
    CloudMask.getFeat (CloudMask.optWrite s name v) n = CloudMask.getFeat s n := by
  cases name with
  | none => rfl
  | some k =>
    exact CloudMask.getFeat_setFeat_ne s k n v (fun hk => h (by rw [hk]))

/-- A lookup after a guarded write sees either the written value or the old
store. -/
theorem CloudMask.getFeat_optWrite_cases (s : List (String × CloudMask.FeatVal))
    (name : Option String) (v : CloudMask.FeatVal) (n : String) :
    CloudMask.getFeat (CloudMask.optWrite s name v) n = some v ∨
    CloudMask.getFeat (CloudMask.optWrite s name v) n = CloudMask.getFeat s n := by
  cases name with
  | none => exact Or.inr rfl
  | some k =>
    by_cases hk : k = n
    · subst hk
      exact Or.inl (CloudMask.getFeat_setFeat_self s k v)
    · exact Or.inr (CloudMask.getFeat_setFeat_ne s k n v hk)

/-- A property holding for a stored value and for every later written value
keeps holding after a guarded write. -/
theorem CloudMask.getFeat_optWrite_pres (P : CloudMask.FeatVal → Prop)
    (s : List (String × CloudMask.FeatVal)) (name : Option String)
    (v : CloudMask.FeatVal) (n : String) (hv : P v)
    (h : ∃ u, CloudMask.getFeat s n = some u ∧ P u) :
    ∃ u, CloudMask.getFeat (CloudMask.optWrite s name v) n = some u ∧ P u := by
  rcases CloudMask.getFeat_optWrite_cases s name v n with h1 | h1
  · exact ⟨v, h1, hv⟩
  · obtain ⟨u, hu, hP⟩ := h
    exact ⟨u, by rw [h1, hu], hP⟩

/-- Multiplying a probability array by the validity mask zeroes every pixel
whose validity is `False`. -/
theorem CloudMask.maskValidityProba_invalid :
    ∀ (p : List ℚ) (d : List Bool) (i : ℕ), d.getD i true = false →
      (CloudMask.maskValidityProba p d).getD i 0 = 0 := by
  intro p
  induction p with
  | nil => intro d i _; simp [CloudMask.maskValidityProba]
  | cons a p ih =>
    intro d i h
    cases d with
    | nil => simp at h
    | cons b d' =>
      cases i with
      | zero =>
        simp only [List.getD_cons_zero] at h
        subst h
        simp [CloudMask.maskValidityProba]
      | succ j =>
        simp only [List.getD_cons_succ] at h
        simpa [CloudMask.maskValidityProba] using ih (b :: d').tail j h

/-- ANDing a mask array with the validity mask clears every pixel whose
validity is `False`. -/
theorem CloudMask.maskValidityBool_invalid :
    ∀ (m : List Bool) (d : List Bool) (i : ℕ), d.getD i true = false →
      (CloudMask.maskValidityBool m d).getD i false = false := by
  intro m
  induction m with
  | nil => intro d i _; simp [CloudMask.maskValidityBool]
  | cons a m ih =>
    intro d i h
    cases d with
    | nil => simp at h
    | cons b d' =>
      cases i with
      | zero =>
        simp only [List.getD_cons_zero] at h
        subst h
        simp [CloudMask.maskValidityBool]
      | succ j =>
        simp only [List.getD_cons_succ] at h
        simpa [CloudMask.maskValidityBool] using ih d' j h

/-- C7: every output array written by `AddMultiCloudMaskTask.execute` —
the mono/multi/intersection masks and the mono/multi probability maps,
each written only when its output name is configured — is zero (`false`
for masks, `0` for probabilities) at every pixel whose validity mask is
`False`, because each output is multiplied by the validity mask before
being stored. -/
theorem CloudMask.execute_validity_masking_zero
    (task : CloudMask.AddMultiCloudMaskTask) (dilate_all : List Bool → List Bool)
    (mono_proba multi_proba : List ℚ)
    (mono_mask multi_mask inter_mask : List Bool)
    (is_data : List Bool) (eopatch : CloudMask.EOPatch) (i : ℕ)
    (hinv : is_data.getD i true = false) :
    (∀ n, task.mono_mask_feature = some n →
      ∃ a, CloudMask.getFeat (CloudMask.executeWrites task dilate_all mono_proba
          multi_proba mono_mask multi_mask inter_mask is_data eopatch).mask n
        = some (.boolArr a) ∧ a.getD i false = false) ∧
    (∀ n, task.multi_mask_feature = some n →
      ∃ a, CloudMask.getFeat (CloudMask.executeWrites task dilate_all mono_proba
          multi_proba mono_mask multi_mask inter_mask is_data eopatch).mask n
        = some (.boolArr a) ∧ a.getD i false = false) ∧
    (∀ n, task.mask_feature = some n →
      ∃ a, CloudMask.getFeat (CloudMask.executeWrites task dilate_all mono_proba
          multi_proba mono_mask multi_mask inter_mask is_data eopatch).mask n
        = some (.boolArr a) ∧ a.getD i false = false) ∧
    (∀ n, task.mono_proba_feature = some n →
      ∃ a, CloudMask.getFeat (CloudMask.executeWrites task dilate_all mono_proba
          multi_proba mono_mask multi_mask inter_mask is_data eopatch).data n
        = some (.f32Arr a) ∧ a.getD i 0 = 0) ∧
    (∀ n, task.multi_proba_feature = some n →
      ∃ a, CloudMask.getFeat (CloudMask.executeWrites task dilate_all mono_proba
          multi_proba mono_mask multi_mask inter_mask is_data eopatch).data n
        = some (.f32Arr a) ∧ a.getD i 0 = 0) := by
  dsimp only [CloudMask.executeWrites]
  refine ⟨?_, ?_, ?_, ?_, ?_⟩
  · intro n hn
    have h1 : CloudMask.getFeat
        (CloudMask.optWrite eopatch.mask task.mono_mask_feature
          (.boolArr (CloudMask.maskValidityBool (dilate_all mono_mask) is_data))) n
        = some (.boolArr (CloudMask.maskValidityBool (dilate_all mono_mask) is_data)) := by
      rw [hn]
      exact CloudMask.getFeat_optWrite_eq ..
    have h2 := CloudMask.getFeat_optWrite_pres
      (fun v => ∃ a, v = .boolArr a ∧ a.getD i false = false) _
      task.multi_mask_feature
      (.boolArr (CloudMask.maskValidityBool (dilate_all multi_mask) is_data)) n
      ⟨_, rfl, CloudMask.maskValidityBool_invalid _ _ _ hinv⟩
      ⟨_, h1, _, rfl, CloudMask.maskValidityBool_invalid _ _ _ hinv⟩
    have h3 := CloudMask.getFeat_optWrite_pres
      (fun v => ∃ a, v = .boolArr a ∧ a.getD i false = false) _
      task.mask_feature
      (.boolArr (CloudMask.maskValidityBool (dilate_all inter_mask) is_data)) n
      ⟨_, rfl, CloudMask.maskValidityBool_invalid _ _ _ hinv⟩ h2
    obtain ⟨u, hu, a, ha, hz⟩ := h3
    subst ha
    exact ⟨a, hu, hz⟩
  · intro n hn
    have h1 : CloudMask.getFeat
        (CloudMask.optWrite
          (CloudMask.optWrite eopatch.mask task.mono_mask_feature
            (.boolArr (CloudMask.maskValidityBool (dilate_all mono_mask) is_data)))
          task.multi_mask_feature
          (.boolArr (CloudMask.maskValidityBool (dilate_all multi_mask) is_data))) n
        = some (.boolArr (CloudMask.maskValidityBool (dilate_all multi_mask) is_data)) := by
      rw [hn]
      exact CloudMask.getFeat_optWrite_eq ..
    have h3 := CloudMask.getFeat_optWrite_pres
      (fun v => ∃ a, v = .boolArr a ∧ a.getD i false = false) _
      task.mask_feature
      (.boolArr (CloudMask.maskValidityBool (dilate_all inter_mask) is_data)) n
      ⟨_, rfl, CloudMask.maskValidityBool_invalid _ _ _ hinv⟩
      ⟨_, h1, _, rfl, CloudMask.maskValidityBool_invalid _ _ _ hinv⟩
    obtain ⟨u, hu, a, ha, hz⟩ := h3
    subst ha
    exact ⟨a, hu, hz⟩
  · intro n hn
    rw [hn]
    exact ⟨_, CloudMask.getFeat_optWrite_eq .., 
      CloudMask.maskValidityBool_invalid _ _ _ hinv⟩
  · intro n hn
    have h1 : CloudMask.getFeat
        (CloudMask.optWrite eopatch.data task.mono_proba_feature
          (.f32Arr (CloudMask.maskValidityProba mono_proba is_data))) n
        = some (.f32Arr (CloudMask.maskValidityProba mono_proba is_data)) := by
      rw [hn]
      exact CloudMask.getFeat_optWrite_eq ..
    have h2 := CloudMask.getFeat_optWrite_pres
      (fun v => ∃ a, v = .f32Arr a ∧ a.getD i 0 = 0) _
      task.multi_proba_feature
      (.f32Arr (CloudMask.maskValidityProba multi_proba is_data)) n
      ⟨_, rfl, CloudMask.maskValidityProba_invalid _ _ _ hinv⟩
      ⟨_, h1, _, rfl, CloudMask.maskValidityProba_invalid _ _ _ hinv⟩
    obtain ⟨u, hu, a, ha, hz⟩ := h2
    subst ha
    exact ⟨a, hu, hz⟩
  · intro n hn
    rw [hn]
    exact ⟨_, CloudMask.getFeat_optWrite_eq ..,
      CloudMask.maskValidityProba_invalid _ _ _ hinv⟩

/-- Witness for C7: all five output names configured, one-pixel arrays,
the single pixel invalid; the stored intersection mask is `false` and the
stored mono probability is `0` there. -/
theorem CloudMask.execute_validity_masking_zero_witness :
    (∃ a, CloudMask.getFeat (CloudMask.executeWrites
        (CloudMask.AddMultiCloudMaskTask.mk "bands" "valid" 11 (some "mp")
          (some "up") (some "mm") (some "um") (some "im") (2/5) (1/2))
        id [1] [1] [true] [true] [true] [false] (CloudMask.EOPatch.mk [] [])).mask "im"
      = some (.boolArr a) ∧ a.getD 0 false = false) ∧
    (∃ a, CloudMask.getFeat (CloudMask.executeWrites
        (CloudMask.AddMultiCloudMaskTask.mk "bands" "valid" 11 (some "mp")
          (some "up") (some "mm") (some "um") (some "im") (2/5) (1/2))
        id [1] [1] [true] [true] [true] [false] (CloudMask.EOPatch.mk [] [])).data "mp"
      = some (.f32Arr a) ∧ a.getD 0 0 = 0) :=
  ⟨(CloudMask.execute_validity_masking_zero
      (CloudMask.AddMultiCloudMaskTask.mk "bands" "valid" 11 (some "mp")
        (some "up") (some "mm") (some "um") (some "im") (2/5) (1/2))
      id [1] [1] [true] [true] [true] [false] (CloudMask.EOPatch.mk [] []) 0
      rfl).2.2.1 "im" rfl,
   (CloudMask.execute_validity_masking_zero
      (CloudMask.AddMultiCloudMaskTask.mk "bands" "valid" 11 (some "mp")
        (some "up") (some "mm") (some "um") (some "im") (2/5) (1/2))
      id [1] [1] [true] [true] [true] [false] (CloudMask.EOPatch.mk [] []) 0
      rfl).2.2.2.1 "mp" rfl⟩

/-- C9: `AddMultiCloudMaskTask.execute` writes only under configured output
names — any feature name that is not one of the configured mask output
names keeps its previous value in `eopatch.mask`, any name that is not one
of the configured probability output names keeps its previous value in
`eopatch.data` — and every configured mask output holds a boolean array
while every configured probability output holds a 32-bit float array. -/
theorem CloudMask.execute_writes_only_configured
    (task : CloudMask.AddMultiCloudMaskTask) (dilate_all : List Bool → List Bool)
    (mono_proba multi_proba : List ℚ)
    (mono_mask multi_mask inter_mask : List Bool)
    (is_data : List Bool) (eopatch : CloudMask.EOPatch) :
    (∀ n, task.mono_mask_feature ≠ some n → task.multi_mask_feature ≠ some n →
      task.mask_feature ≠ some n →
      CloudMask.getFeat (CloudMask.executeWrites task dilate_all mono_proba
          multi_proba mono_mask multi_mask inter_mask is_data eopatch).mask n
        = CloudMask.getFeat eopatch.mask n) ∧
    (∀ n, task.mono_proba_feature ≠ some n → task.multi_proba_feature ≠ some n →
      CloudMask.getFeat (CloudMask.executeWrites task dilate_all mono_proba
          multi_proba mono_mask multi_mask inter_mask is_data eopatch).data n
        = CloudMask.getFeat eopatch.data n) ∧
    (∀ n, task.mono_mask_feature = some n ∨ task.multi_mask_feature = some n ∨
        task.mask_feature = some n →
      ∃ a, CloudMask.getFeat (CloudMask.executeWrites task dilate_all mono_proba
          multi_proba mono_mask multi_mask inter_mask is_data eopatch).mask n
        = some (.boolArr a)) ∧
    (∀ n, task.mono_proba_feature = some n ∨ task.multi_proba_feature = some n →
      ∃ a, CloudMask.getFeat (CloudMask.executeWrites task dilate_all mono_proba
          multi_proba mono_mask multi_mask inter_mask is_data eopatch).data n
        = some (.f32Arr a)) := by
  dsimp only [CloudMask.executeWrites]
  refine ⟨?_, ?_, ?_, ?_⟩
  · intro n h1 h2 h3
    rw [CloudMask.getFeat_optWrite_ne _ _ _ _ h3,
      CloudMask.getFeat_optWrite_ne _ _ _ _ h2,
      CloudMask.getFeat_optWrite_ne _ _ _ _ h1]
  · intro n h1 h2
    rw [CloudMask.getFeat_optWrite_ne _ _ _ _ h2,
      CloudMask.getFeat_optWrite_ne _ _ _ _ h1]
  · intro n hn
    rcases hn with hn | hn | hn
    · have h1 : CloudMask.getFeat
          (CloudMask.optWrite eopatch.mask task.mono_mask_feature
            (.boolArr (CloudMask.maskValidityBool (dilate_all mono_mask) is_data))) n
          = some (.boolArr (CloudMask.maskValidityBool (dilate_all mono_mask) is_data)) := by
        rw [hn]
        exact CloudMask.getFeat_optWrite_eq ..
      have h2 := CloudMask.getFeat_optWrite_pres
        (fun v => ∃ a, v = .boolArr a) _ task.multi_mask_feature
        (.boolArr (CloudMask.maskValidityBool (dilate_all multi_mask) is_data)) n
        ⟨_, rfl⟩ ⟨_, h1, _, rfl⟩
      have h3 := CloudMask.getFeat_optWrite_pres
        (fun v => ∃ a, v = .boolArr a) _ task.mask_feature
        (.boolArr (CloudMask.maskValidityBool (dilate_all inter_mask) is_data)) n
        ⟨_, rfl⟩ h2
      obtain ⟨u, hu, a, ha⟩ := h3
      subst ha
      exact ⟨a, hu⟩
    · have h1 : CloudMask.getFeat
          (CloudMask.optWrite
            (CloudMask.optWrite eopatch.mask task.mono_mask_feature
              (.boolArr (CloudMask.maskValidityBool (dilate_all mono_mask) is_data)))
            task.multi_mask_feature
            (.boolArr (CloudMask.maskValidityBool (dilate_all multi_mask) is_data))) n
          = some (.boolArr (CloudMask.maskValidityBool (dilate_all multi_mask) is_data)) := by
        rw [hn]
        exact CloudMask.getFeat_optWrite_eq ..
      have h3 := CloudMask.getFeat_optWrite_pres
        (fun v => ∃ a, v = .boolArr a) _ task.mask_feature
        (.boolArr (CloudMask.maskValidityBool (dilate_all inter_mask) is_data)) n
        ⟨_, rfl⟩ ⟨_, h1, _, rfl⟩
      obtain ⟨u, hu, a, ha⟩ := h3
      subst ha
      exact ⟨a, hu⟩
    · rw [hn]
      exact ⟨_, CloudMask.getFeat_optWrite_eq ..⟩
  · intro n hn
    rcases hn with hn | hn
    · have h1 : CloudMask.getFeat
          (CloudMask.optWrite eopatch.data task.mono_proba_feature
            (.f32Arr (CloudMask.maskValidityProba mono_proba is_data))) n
          = some (.f32Arr (CloudMask.maskValidityProba mono_proba is_data)) := by
        rw [hn]
        exact CloudMask.getFeat_optWrite_eq ..
      have h2 := CloudMask.getFeat_optWrite_pres
        (fun v => ∃ a, v = .f32Arr a) _ task.multi_proba_feature
        (.f32Arr (CloudMask.maskValidityProba multi_proba is_data)) n
        ⟨_, rfl⟩ ⟨_, h1, _, rfl⟩
      obtain ⟨u, hu, a, ha⟩ := h2
      subst ha
      exact ⟨a, hu⟩
    · rw [hn]
      exact ⟨_, CloudMask.getFeat_optWrite_eq ..⟩

/-- Witness for C9: only the intersection-mask and multi-probability names
configured; an unrelated feature name `"other"` is untouched in both
stores, and the configured names hold arrays of the declared types. -/
theorem CloudMask.execute_writes_only_configured_witness :
    (CloudMask.getFeat (CloudMask.executeWrites
        (CloudMask.AddMultiCloudMaskTask.mk "bands" "valid" 11 none
          (some "up") none none (some "im") (2/5) (1/2))
        id [1] [1] [true] [true] [true] [true]
        (CloudMask.EOPatch.mk [("other", .other 7)] [("other", .other 7)])).mask "other"
      = CloudMask.getFeat [("other", CloudMask.FeatVal.other 7)] "other") ∧
    (CloudMask.getFeat (CloudMask.executeWrites
        (CloudMask.AddMultiCloudMaskTask.mk "bands" "valid" 11 none
          (some "up") none none (some "im") (2/5) (1/2))
        id [1] [1] [true] [true] [true] [true]
        (CloudMask.EOPatch.mk [("other", .other 7)] [("other", .other 7)])).data "other"
      = CloudMask.getFeat [("other", CloudMask.FeatVal.other 7)] "other") ∧
    (∃ a, CloudMask.getFeat (CloudMask.executeWrites
        (CloudMask.AddMultiCloudMaskTask.mk "bands" "valid" 11 none
          (some "up") none none (some "im") (2/5) (1/2))
        id [1] [1] [true] [true] [true] [true]
        (CloudMask.EOPatch.mk [("other", .other 7)] [("other", .other 7)])).mask "im"
      = some (.boolArr a)) ∧
    (∃ a, CloudMask.getFeat (CloudMask.executeWrites
        (CloudMask.AddMultiCloudMaskTask.mk "bands" "valid" 11 none
          (some "up") none none (some "im") (2/5) (1/2))
        id [1] [1] [true] [true] [true] [true]
        (CloudMask.EOPatch.mk [("other", .other 7)] [("other", .other 7)])).data "up"
      = some (.f32Arr a)) :=
  ⟨(CloudMask.execute_writes_only_configured
      (CloudMask.AddMultiCloudMaskTask.mk "bands" "valid" 11 none
        (some "up") none none (some "im") (2/5) (1/2))
      id [1] [1] [true] [true] [true] [true]
      (CloudMask.EOPatch.mk [("other", .other 7)] [("other", .other 7)])).1 "other"
      (by simp) (by simp) (by simp),
   (CloudMask.execute_writes_only_configured
      (CloudMask.AddMultiCloudMaskTask.mk "bands" "valid" 11 none
        (some "up") none none (some "im") (2/5) (1/2))
      id [1] [1] [true] [true] [true] [true]
      (CloudMask.EOPatch.mk [("other", .other 7)] [("other", .other 7)])).2.1 "other"
      (by simp) (by simp),
   (CloudMask.execute_writes_only_configured
      (CloudMask.AddMultiCloudMaskTask.mk "bands" "valid" 11 none
        (some "up") none none (some "im") (2/5) (1/2))
      id [1] [1] [true] [true] [true] [true]
      (CloudMask.EOPatch.mk [("other", .other 7)] [("other", .other 7)])).2.2.1 "im"
      (Or.inr (Or.inr rfl)),
   (CloudMask.execute_writes_only_configured
      (CloudMask.AddMultiCloudMaskTask.mk "bands" "valid" 11 none
        (some "up") none none (some "im") (2/5) (1/2))
      id [1] [1] [true] [true] [true] [true]
      (CloudMask.EOPatch.mk [("other", .other 7)] [("other", .other 7)])).2.2.2 "up"
      (Or.inr rfl)⟩

/-- C8: reduced SSIM of a spatially uniform, fully valid frame against
itself.  With `mu1 = mu2 = v` (the blurred mean of the constant frame),
`sigma1_2 = sigma2_2 = 0` (its pre-variance), and the blur preserving the
constant slice `v*v` — so that the cross term `blur(x*x) - mu1*mu2` equals
`sigma1_2` — `_red_ssim` evaluates to exactly `1` at every pixel in exact
arithmetic, with the stabilizing constants `c1 = 1e-6`, `c2 = 1e-5`. -/
theorem CloudMask.red_ssim_self_uniform_one (blur : CloudMask.Img → CloudMask.Img)
    (n : ℕ) (v : ℚ)
    (hblur : blur (List.replicate n (v * v)) = List.replicate n (v * v)) :
    CloudMask.red_ssim blur (List.replicate n v) (List.replicate n v)
      (List.replicate n true) (List.replicate n v) (List.replicate n v)
      (List.replicate n 0) (List.replicate n 0)
      CloudMask.red_ssim_c1 CloudMask.red_ssim_c2
    = List.replicate n 1 := by
  simp only [CloudMask.red_ssim, CloudMask.boolImg, List.map_replicate, if_true,
    List.zipWith_replicate, mul_one, min_self, hblur, sub_self, mul_zero,
    add_zero, zero_add]
  have hx : (2 * (v * v) + CloudMask.red_ssim_c1) * CloudMask.red_ssim_c2 /
      ((v * v + v * v + CloudMask.red_ssim_c1) * CloudMask.red_ssim_c2) = 1 := by
    have h2 : v * v + v * v + CloudMask.red_ssim_c1
        = 2 * (v * v) + CloudMask.red_ssim_c1 := by ring
    rw [h2]
    apply div_self
    have hvv : 0 ≤ v * v := mul_self_nonneg v
    have hc1 : (0 : ℚ) < CloudMask.red_ssim_c1 := by
      norm_num [CloudMask.red_ssim_c1]
    have hc2 : (0 : ℚ) < CloudMask.red_ssim_c2 := by
      norm_num [CloudMask.red_ssim_c2]
    have hpos : (0 : ℚ) < 2 * (v * v) + CloudMask.red_ssim_c1 := by linarith
    exact ne_of_gt (mul_pos hpos hc2)
  rw [hx]

/-- Witness for C8: a uniform two-pixel frame of value `3` under the
identity blur. -/
theorem CloudMask.red_ssim_self_uniform_one_witness :
    CloudMask.red_ssim id (List.replicate 2 3) (List.replicate 2 3)
      (List.replicate 2 true) (List.replicate 2 3) (List.replicate 2 3)
      (List.replicate 2 0) (List.replicate 2 0)
      CloudMask.red_ssim_c1 CloudMask.red_ssim_c2
    = List.replicate 2 1 :=
  CloudMask.red_ssim_self_uniform_one id 2 3 rfl

/-- Window bounds of `_frame_indices` (helper for the C1 proof). -/
theorem CloudMask.frame_indices_bnds (w t i : ℕ) (hw : 1 ≤ w) (hi : i < t) :
    0 ≤ (CloudMask.frame_indices w t i).1 ∧
    (CloudMask.frame_indices w t i).1 ≤ (i : Int) ∧
    (i : Int) < (CloudMask.frame_indices w t i).2.1 ∧
    (CloudMask.frame_indices w t i).2.1 ≤ (t : Int) := by
  dsimp only [CloudMask.frame_indices]
  omega

/-- Between consecutive target frames the window of `_frame_indices` either
keeps both bounds or slides forward by exactly one frame — the situation
the incremental branch of `_multi_iterations` is written for. -/
theorem CloudMask.frame_indices_step (w t i : ℕ) (hw : 1 ≤ w) (hi : i + 1 < t) :
    ((CloudMask.frame_indices w t (i+1)).1 = (CloudMask.frame_indices w t i).1 ∧
     (CloudMask.frame_indices w t (i+1)).2.1 = (CloudMask.frame_indices w t i).2.1) ∨
    ((CloudMask.frame_indices w t (i+1)).1 = (CloudMask.frame_indices w t i).1 + 1 ∧
     (CloudMask.frame_indices w t (i+1)).2.1 = (CloudMask.frame_indices w t i).2.1 + 1) := by
  dsimp only [CloudMask.frame_indices]
  omega

/-- Lookup `getD` of a zipped pair of lists. -/
theorem CloudMask.zip_getD :
    ∀ (as : List CloudMask.Img) (bs : List (List Bool)) (j : ℕ),
      j < as.length → j < bs.length →
      (as.zip bs).getD j ([], []) = (as.getD j [], bs.getD j []) := by
  intro as
  induction as with
  | nil => intro bs j h _; simp at h
  | cons a as ih =>
    intro bs j h1 h2
    cases bs with
    | nil => simp at h2
    | cons b bs =>
      cases j with
      | zero => rfl
      | succ j' =>
        simp only [List.zip_cons_cons, List.getD_cons_succ]
        exact ih bs j' (by simpa using h1) (by simpa using h2)

/-- Lookup `getD` commutes with `map` when the default is mapped too. -/
theorem CloudMask.getD_map {α β : Type} (f : α → β) (l : List α) (n : ℕ) (d : α) :
    (l.map f).getD n (f d) = f (l.getD n d) := by
  induction l generalizing n with
  | nil => rfl
  | cons a l ih =>
    cases n with
    | zero => rfl
    | succ n' => exact ih n'

/-- Sliding a window slice of a list forward by one frame: dropping the
leading entry and appending the entry at the old upper bound yields the
slice shifted by one. -/
theorem CloudMask.slice_slide {α : Type} (M : List α) (a k : ℕ) (d : α)
    (hj : a + k < M.length) (hk : 1 ≤ k) :
    ((M.drop a).take k).drop 1 ++ [M.getD (a + k) d] = (M.drop (a + 1)).take k := by
  have h1 : ((M.drop a).take k).drop 1 = (M.drop (a + 1)).take (k - 1) := by
    rw [List.drop_take, List.drop_drop]
  have hget : M[a + k]? = some M[a + k] := List.getElem?_eq_getElem hj
  have hgetD : M.getD (a + k) d = M[a + k] := by
    rw [List.getD_eq_getElem?_getD, hget]
    rfl
  have hidx : (M.drop (a + 1))[k - 1]? = M[a + k]? := by
    rw [List.getElem?_drop]
    congr 1
    omega
  have h2 : (M.drop (a + 1)).take k
      = (M.drop (a + 1)).take (k - 1) ++ ((M.drop (a + 1))[k - 1]?).toList := by
    conv_lhs => rw [show k = (k - 1) + 1 from by omega]
    rw [List.take_succ]
  rw [h1, h2, hidx, hget, hgetD]
  rfl

/-- The window-slide step, lifted through the `statePair` map and the
half-open bounds used by `fullState`. -/
theorem CloudMask.slice_slide_map {α β : Type} (f : α → β) (P : List α)
    (a b : ℕ) (dflt : α) (hab : a < b) (hb : b < P.length) :
    (((P.drop a).take (b - a)).map f).drop 1 ++ [f (P.getD b dflt)]
      = ((P.drop (a + 1)).take ((b + 1) - (a + 1))).map f := by
  rw [List.map_take, List.map_drop, List.map_take, List.map_drop]
  have hk : (b + 1) - (a + 1) = b - a := by omega
  rw [hk]
  rw [show f (P.getD b dflt) = (P.map f).getD b (f dflt) from
    (CloudMask.getD_map f P b dflt).symm]
  have hj : a + (b - a) = b := by omega
  have hlt : a + (b - a) < (P.map f).length := by
    rw [hj]
    simpa using hb
  have := CloudMask.slice_slide (P.map f) a (b - a) (f dflt) hlt (by omega)
  rw [hj] at this
  exact this

/-- C1: for every band stack and validity mask of matching length, every
max window size `w ≥ 1` and every target frame `i`, the incremental
windowed-statistics state maintained by `_multi_iterations` — full
computation at the first target, state reuse when the window bounds are
unchanged, left-shift plus one new trailing frame when the window slid
forward — equals the full recomputation of the first-frame branch over the
target's window, frame by frame, for any blur primitive. -/
theorem CloudMask.multi_iterations_incremental_eq_full
    (blur : CloudMask.Img → CloudMask.Img) (bands : List CloudMask.Img)
    (isData : List (List Bool)) (w : ℕ) (hw : 1 ≤ w)
    (hlen : isData.length = bands.length) :
    ∀ i, i < bands.length →
      CloudMask.incState blur bands isData w i
        = CloudMask.fullState blur bands isData w i := by
  intro i
  induction i with
  | zero => intro _; rfl
  | succ i ih =>
    intro hi1
    have hi : i < bands.length := by omega
    have hIH := ih hi
    have hbi := CloudMask.frame_indices_bnds w bands.length i hw hi
    have hbi1 := CloudMask.frame_indices_bnds w bands.length (i + 1) hw hi1
    rcases CloudMask.frame_indices_step w bands.length i hw hi1 with ⟨h1, h2⟩ | ⟨h1, h2⟩
    · have hstep : CloudMask.incState blur bands isData w (i + 1)
          = CloudMask.incState blur bands isData w i := by
        dsimp only [CloudMask.incState]
        rw [if_pos ⟨h1, h2⟩]
      rw [hstep, hIH]
      dsimp only [CloudMask.fullState]
      rw [h1, h2]
    · have hcond : ¬((CloudMask.frame_indices w bands.length (i + 1)).1
            = (CloudMask.frame_indices w bands.length i).1 ∧
          (CloudMask.frame_indices w bands.length (i + 1)).2.1
            = (CloudMask.frame_indices w bands.length i).2.1) := by
        intro hc
        omega
      have hstep : CloudMask.incState blur bands isData w (i + 1)
          = (CloudMask.incState blur bands isData w i).drop 1
            ++ [CloudMask.statePair blur
                  (bands.getD (((CloudMask.frame_indices w bands.length (i + 1)).2.1).toNat - 1) [],
                   isData.getD (((CloudMask.frame_indices w bands.length (i + 1)).2.1).toNat - 1) [])] := by
        dsimp only [CloudMask.incState]
        rw [if_neg hcond]
      have ha' : ((CloudMask.frame_indices w bands.length (i + 1)).1).toNat
          = ((CloudMask.frame_indices w bands.length i).1).toNat + 1 := by
        omega
      have hb' : ((CloudMask.frame_indices w bands.length (i + 1)).2.1).toNat
          = ((CloudMask.frame_indices w bands.length i).2.1).toNat + 1 := by
        omega
      have hblt : ((CloudMask.frame_indices w bands.length i).2.1).toNat
          < bands.length := by
        omega
      have hblt' : ((CloudMask.frame_indices w bands.length i).2.1).toNat
          < isData.length := by
        omega
      have hab : ((CloudMask.frame_indices w bands.length i).1).toNat
          < ((CloudMask.frame_indices w bands.length i).2.1).toNat := by
        omega
      have hPlen : ((CloudMask.frame_indices w bands.length i).2.1).toNat
          < (bands.zip isData).length := by
        rw [List.length_zip]
        omega
      rw [hstep, hIH]
      dsimp only [CloudMask.fullState]
      rw [ha', hb', Nat.add_sub_cancel,
        ← CloudMask.zip_getD bands isData _ hblt hblt']
      exact CloudMask.slice_slide_map (CloudMask.statePair blur) (bands.zip isData)
        _ _ ([], []) hab hPlen

/-- Witness for C1: a three-frame stack of one-pixel frames, window size 2,
identity blur, target frame 2 (whose window slid forward twice). -/
theorem CloudMask.multi_iterations_incremental_eq_full_witness :
    CloudMask.incState id [[1], [2], [4]] [[true], [true], [false]] 2 2
      = CloudMask.fullState id [[1], [2], [4]] [[true], [true], [false]] 2 2 :=
  CloudMask.multi_iterations_incremental_eq_full id [[1], [2], [4]]
    [[true], [true], [false]] 2 (by decide) (by decide) 2 (by decide)
